import Mathlib

/-!
Shallow embedding of the concurrent batch-inference orchestrator of the
`ryan-arman/lab` repository (files `src/arxiv_abstract/notebooks/utils.py`
and `src/banking77/notebooks/utils.py`).

The orchestrator pattern, repeated at four call sites
(`evaluate_summaries_batch`, `generate_abstracts_batch`,
`evaluate_incorrect_classifications_batch`, `generate_hard_examples_batch`),
is: submit one task per item to a `ThreadPoolExecutor(max_workers=W)`,
iterate `as_completed` over the futures, route each task's returned tuple
into a `results` or `errors` list, and (at three of the four sites) sort
`results` by original index before returning.

Modelling choices, uniform throughout:
  - The per-item remote work (the body of the `try:` block — prompt
    construction, the OpenAI call, response parsing) is an opaque operation
    `op : ... → Except String R`; a Python exception `e` raised inside the
    `try:` block is `Except.error (str e)`, a normal return is `Except.ok`.
    `R` stands for the whole success payload (for `evaluate_summaries_batch`
    the pair of the result dict and the evaluation prompt).
  - `as_completed` yields every submitted future exactly once, in a
    non-deterministic completion order; a run of the collection loop is
    therefore parameterised by that order, a permutation of the submitted
    tasks, and every theorem quantifies over it.
  - Python truthiness is kept: the loop tests `if error:`, which is false
    both for `None` and for the empty string.
-/

namespace ArxivUtils

/-- Embeds the `openai.OpenAI(api_key=api_key)` constructor: an opaque handle
holding the key it was built from. -/
structure OpenAIClient where
  api_key : String
deriving DecidableEq

/-- Embeds `get_openai_client` (src/arxiv_abstract/notebooks/utils.py lines
142-147): reads `OPENAI_API_KEY` from the environment (`env`, `none` when the
variable is unset) and raises ValueError when it is missing. Python's
`if not api_key:` is truthiness, so the empty string also raises. -/
def get_openai_client (env : Option String) : Except String OpenAIClient :=
  match env with
  | none => Except.error "OPENAI_API_KEY environment variable is not set"
  | some k =>
    if k = "" then Except.error "OPENAI_API_KEY environment variable is not set"
    else Except.ok ⟨k⟩

/-- Embeds importing the arXiv utils module: line 151 runs the module-level
statement `client = get_openai_client()` eagerly, so the import itself either
yields the module-level client or raises the ValueError from
`get_openai_client`. -/
def importModule (env : Option String) : Except String OpenAIClient :=
  get_openai_client env

/-- Embeds `evaluate_single` (src/arxiv_abstract/notebooks/utils.py lines
286-298): runs the per-item operation for index `idx` inside
`try: ... except Exception as e:`; a normal return gives `(idx, result, None)`
and an exception gives `(idx, None, str(e))`. The Python 4-tuple's `result`
and `prompt` components are collapsed into the one payload `R`. This function
is total: no exception escapes it. -/
def evaluate_single {R : Type} (op : Nat → Except String R) (idx : Nat) :
    Nat × Option R × Option String :=
  match op idx with
  | Except.ok r => (idx, some r, none)
  | Except.error e => (idx, none, some e)

/-- Mutable state of the collection loop: the `results` and `errors` lists and
the `completed` counter (src/arxiv_abstract/notebooks/utils.py lines 283-284
and 312). -/
structure BatchState (R : Type) where
  results : List (Nat × Option R)
  errors : List (Nat × String)
  completed : Nat
deriving DecidableEq

/-- Python truthiness of the `error` component: `if error:` is false for
`None` and for the empty string. -/
def isTruthy : Option String → Bool
  | none => false
  | some s => !(s == "")

/-- Embeds one iteration of the `for future in as_completed(...)` loop body
(src/arxiv_abstract/notebooks/utils.py lines 313-323): unpack the task's
tuple `(idx, result, error)`; `if error:` append `(idx, error)` to `errors`,
else append `(idx, result)` to `results` and increment `completed`. -/
def collectOne {R : Type} (st : BatchState R) (t : Nat × Option R × Option String) :
    BatchState R :=
  if isTruthy t.2.2 then
    { st with errors := st.errors ++ [(t.1, t.2.2.getD "")] }
  else
    { st with results := st.results ++ [(t.1, t.2.1)], completed := st.completed + 1 }

/-- Folding the collection loop over the list of completed tasks, from an
arbitrary loop state. -/
def collectFold {R : Type} (st : BatchState R) (outs : List (Nat × Option R × Option String)) :
    BatchState R :=
  outs.foldl collectOne st

/-- State of the collection loop of `evaluate_summaries_batch` after the
completed futures listed in `order` (each entry an original index) have been
processed, starting from empty lists and a zero counter. -/
def collectLoop {R : Type} (op : Nat → Except String R) (order : List Nat) : BatchState R :=
  collectFold ⟨[], [], 0⟩ (order.map (evaluate_single op))

/-- Embeds `results.sort(key=lambda x: x[0])` (src/arxiv_abstract/notebooks/
utils.py line 329): Python's stable ascending sort by the index component,
modelled by the stable `List.insertionSort`. -/
def sortResults {R : Type} (rs : List (Nat × Option R)) : List (Nat × Option R) :=
  List.insertionSort (fun a b => a.1 ≤ b.1) rs

/-- Embeds `evaluate_summaries_batch` (src/arxiv_abstract/notebooks/utils.py
lines 261-331) as a function of the per-item operation and of the completion
order `order` delivered by `as_completed` (a permutation of the original
indices `0..N-1`): returns the pair `(results sorted by index, errors)`. -/
def evaluate_summaries_batch {R : Type} (op : Nat → Except String R) (order : List Nat) :
    List (Nat × Option R) × List (Nat × String) :=
  (sortResults (collectLoop op order).results, (collectLoop op order).errors)

/-- Embeds `generate_abstracts_batch` (src/arxiv_abstract/notebooks/utils.py
lines 368-451): the same submit / as_completed / route / final sort structure
as `evaluate_summaries_batch` (its loop body differs only in progress-bar
display), so its outputs are the same function of the operation and the
completion order. -/
def generate_abstracts_batch {R : Type} (op : Nat → Except String R) (order : List Nat) :
    List (Nat × Option R) × List (Nat × String) :=
  (sortResults (collectLoop op order).results, (collectLoop op order).errors)

/-- Embeds the validation CPython's `ThreadPoolExecutor.__init__` performs
when the source enters `with ThreadPoolExecutor(max_workers=max_workers)`
(src/arxiv_abstract/notebooks/utils.py line 304): `max_workers <= 0` raises
`ValueError("max_workers must be greater than 0")` before any task is
submitted. -/
def threadPoolExecutorCheck (max_workers : Int) : Except String Unit :=
  if max_workers ≤ 0 then Except.error "max_workers must be greater than 0"
  else Except.ok ()

/-- Embeds a full call of `evaluate_summaries_batch` including executor
construction: with `max_workers <= 0` the call raises before any task is
submitted or any operation invoked; otherwise it returns the batch outputs. -/
def evaluate_summaries_batch_call {R : Type} (max_workers : Int)
    (op : Nat → Except String R) (order : List Nat) :
    Except String (List (Nat × Option R) × List (Nat × String)) :=
  match threadPoolExecutorCheck max_workers with
  | Except.error e => Except.error e
  | Except.ok _ => Except.ok (evaluate_summaries_batch op order)

end ArxivUtils

namespace Banking77Utils

/-- Embeds `get_openai_client` (src/banking77/notebooks/utils.py lines
768-773), identical to the arXiv one. -/
def get_openai_client (env : Option String) : Except String ArxivUtils.OpenAIClient :=
  ArxivUtils.get_openai_client env

/-- Embeds importing the Banking77 utils module: the only module-level client
statement executed at import time is `_client = None` (line 777), so
the import always succeeds and yields an empty client slot, whatever the
environment holds. -/
def importModule (env : Option String) : Except String (Option ArxivUtils.OpenAIClient) :=
  Except.ok none

/-- Embeds `get_client` (src/banking77/notebooks/utils.py lines 779-784): on
first use, with `_client` still `None`, it calls `get_openai_client` (which
may raise); afterwards it returns the cached client. Returns the client
together with the updated `_client` slot. -/
def get_client (env : Option String) (slot : Option ArxivUtils.OpenAIClient) :
    Except String (ArxivUtils.OpenAIClient × Option ArxivUtils.OpenAIClient) :=
  match slot with
  | some c => Except.ok (c, some c)
  | none =>
    match get_openai_client env with
    | Except.ok c => Except.ok (c, some c)
    | Except.error e => Except.error e

/-- Embeds `evaluate_single` (src/banking77/notebooks/utils.py lines 953-965):
inside `try:` it first looks the row up, `inference_data[row_idx]` — a Python
`IndexError("list index out of range")` for an out-of-range index is caught by
the same `except Exception` — and then runs the per-item evaluation `evalOp`
(embedding `evaluate_incorrect_classification` and everything else that can
raise in the body) on that row. `predicted_label` and `gt_label` are accepted
and ignored, as in the source. Total: no exception escapes. -/
def evaluate_single {Row R : Type} (inference_data : List Row)
    (evalOp : Row → Except String R) (row_idx : Nat)
    (predicted_label gt_label : Int) : Nat × Option R × Option String :=
  match inference_data[row_idx]? with
  | none => (row_idx, none, some "list index out of range")
  | some row =>
    match evalOp row with
    | Except.ok r => (row_idx, some r, none)
    | Except.error e => (row_idx, none, some e)

/-- Embeds `evaluate_incorrect_classifications_batch` (src/banking77/
notebooks/utils.py lines 925-1021): one task per `(row_idx, pred, gt)` triple
of `incorrect_list`; `work` is the completion order `as_completed` delivers, a
permutation of `incorrect_list`; each completed task's tuple is routed by the
same `if error:` loop body as the arXiv sites (lines 993-1001), and `results`
is sorted by `row_idx` at line 1019. -/
def evaluate_incorrect_classifications_batch {Row R : Type} (inference_data : List Row)
    (evalOp : Row → Except String R) (work : List (Nat × Int × Int)) :
    List (Nat × Option R) × List (Nat × String) :=
  let st := ArxivUtils.collectFold ⟨[], [], 0⟩
    (work.map (fun t => evaluate_single inference_data evalOp t.1 t.2.1 t.2.2))
  (ArxivUtils.sortResults st.results, st.errors)

/-- One entry of the `all_results` list of `generate_hard_examples_batch`
(src/banking77/notebooks/utils.py lines 1276-1296): the pair string, the
success flag, the captured error message, and the success payload (the
source's `label1_id`/`label1_name`/... fields and the `result` dict are
collapsed into the one payload `HR`; on failure the source sets them all to
`None`). -/
structure PairResult (HR : Type) where
  pair : String
  success : Bool
  error : Option String
  result : Option HR
deriving DecidableEq

/-- Embeds `generate_for_pair` (src/banking77/notebooks/utils.py lines
1249-1296): the whole `try:` body (pair parsing, label-name lookup and the
`generate_hard_examples` call) is the opaque operation `genOp`; any exception
is caught and recorded as a failure dict carrying `str(e)`. Total. -/
def generate_for_pair {HR : Type} (genOp : String → Except String HR) (pair : String) :
    PairResult HR :=
  match genOp pair with
  | Except.ok r => ⟨pair, true, none, some r⟩
  | Except.error e => ⟨pair, false, some e, none⟩

/-- Embeds the `all_results` list returned (under key `results`) by
`generate_hard_examples_batch` (src/banking77/notebooks/utils.py lines
1298-1341 and 1370): entries are appended strictly in the order `as_completed`
delivers the futures — `order` is a permutation of the submitted `pairs` — and
are never re-sorted. Since `generate_for_pair` is total, the loop's own
`except` branch (lines 1328-1341) is never taken. -/
def generate_hard_examples_batch {HR : Type} (genOp : String → Except String HR)
    (order : List String) : List (PairResult HR) :=
  order.map (generate_for_pair genOp)

/-- Embeds a full call of `generate_hard_examples_batch` including executor
construction at line 1306 (same CPython validation as the arXiv sites). -/
def generate_hard_examples_batch_call {HR : Type} (max_workers : Int)
    (genOp : String → Except String HR) (order : List String) :
    Except String (List (PairResult HR)) :=
  match ArxivUtils.threadPoolExecutorCheck max_workers with
  | Except.error e => Except.error e
  | Except.ok _ => Except.ok (generate_hard_examples_batch genOp order)

end Banking77Utils

namespace Pool

/-- State of a `ThreadPoolExecutor(max_workers=W)` run over one batch:
tasks not yet picked up by a worker thread, tasks currently executing inside a
worker (the operations "in progress" between entry and exit), and tasks whose
operation has returned. -/
structure PoolState where
  pending : List Nat
  running : List Nat
  finished : List Nat
deriving DecidableEq

/-- Small-step dispatch discipline of the executor the batch sites enter at
src/arxiv_abstract/notebooks/utils.py line 304: the pool owns `W` worker
threads, each executing at most one operation at a time, so a pending task
starts executing only while fewer than `W` operations are running; a running
operation may finish at any time. -/
inductive PoolStep (W : Nat) : PoolState → PoolState → Prop where
  | dispatch (i : Nat) (p r f : List Nat) :
      r.length < W → PoolStep W ⟨i :: p, r, f⟩ ⟨p, i :: r, f⟩
  | complete (i : Nat) (p r₁ r₂ f : List Nat) :
      PoolStep W ⟨p, r₁ ++ i :: r₂, f⟩ ⟨p, r₁ ++ r₂, i :: f⟩

/-- Reflexive-transitive closure of `PoolStep`: the states one batch run can
pass through. -/
inductive PoolReach (W : Nat) : PoolState → PoolState → Prop where
  | refl (s : PoolState) : PoolReach W s s
  | tail (s t u : PoolState) : PoolReach W s t → PoolStep W t u → PoolReach W s u

/-- Start of a batch over the submitted items: every task pending, no worker
busy, nothing finished. -/
def startState (items : List Nat) : PoolState :=
  ⟨items, [], []⟩

end Pool

namespace ArxivUtils

/-- Indices recorded across the two accumulation lists of a loop state. -/
def stKeys {R : Type} (st : BatchState R) : List Nat :=
  st.results.map Prod.fst ++ st.errors.map Prod.fst

theorem collectOne_len {R : Type} (st : BatchState R) (t : Nat × Option R × Option String) :
    (collectOne st t).results.length + (collectOne st t).errors.length
      = st.results.length + st.errors.length + 1 := by
  unfold collectOne
  by_cases h : isTruthy t.2.2 <;> simp [h] <;> omega

theorem collectFold_cons {R : Type} (st : BatchState R) (t : Nat × Option R × Option String)
    (ts : List (Nat × Option R × Option String)) :
    collectFold st (t :: ts) = collectFold (collectOne st t) ts := rfl

theorem collectFold_len {R : Type} (outs : List (Nat × Option R × Option String)) :
    ∀ st : BatchState R,
      (collectFold st outs).results.length + (collectFold st outs).errors.length
        = st.results.length + st.errors.length + outs.length := by
  induction outs with
  | nil => intro st; simp [collectFold]
  | cons t ts ih =>
    intro st
    rw [collectFold_cons, ih (collectOne st t), collectOne_len]
    simp
    omega

theorem collectOne_keys {R : Type} (st : BatchState R) (t : Nat × Option R × Option String) :
    (stKeys (collectOne st t)).Perm (t.1 :: stKeys st) := by
  unfold stKeys collectOne
  by_cases h : isTruthy t.2.2
  · rw [if_pos h]
    dsimp only
    rw [List.map_append, ← List.append_assoc]
    simp only [List.map_cons, List.map_nil]
    exact List.perm_append_singleton _ _
  · rw [if_neg h]
    dsimp only
    rw [List.map_append]
    simp only [List.map_cons, List.map_nil]
    rw [List.append_assoc, List.singleton_append]
    exact List.perm_middle

theorem collectFold_keys {R : Type} (outs : List (Nat × Option R × Option String)) :
    ∀ st : BatchState R,
      (stKeys (collectFold st outs)).Perm (outs.map (fun t => t.1) ++ stKeys st) := by
  induction outs with
  | nil => intro st; simp [collectFold]
  | cons t ts ih =>
    intro st
    rw [collectFold_cons]
    refine (ih (collectOne st t)).trans ?_
    refine ((collectOne_keys st t).append_left _).trans ?_
    simp only [List.map_cons, List.cons_append]
    exact List.perm_middle

theorem collectOne_completed {R : Type} (st : BatchState R)
    (t : Nat × Option R × Option String) :
    (collectOne st t).completed + st.results.length
      = (collectOne st t).results.length + st.completed := by
  unfold collectOne
  by_cases h : isTruthy t.2.2 <;> simp [h] <;> omega

theorem collectFold_completed {R : Type} (outs : List (Nat × Option R × Option String)) :
    ∀ st : BatchState R,
      (collectFold st outs).completed + st.results.length
        = (collectFold st outs).results.length + st.completed := by
  induction outs with
  | nil => intro st; simp [collectFold]; omega
  | cons t ts ih =>
    intro st
    rw [collectFold_cons]
    have h1 := ih (collectOne st t)
    have h2 := collectOne_completed st t
    omega

theorem collectOne_mono {R : Type} (st : BatchState R) (t : Nat × Option R × Option String) :
    st.completed ≤ (collectOne st t).completed
      ∧ st.results.length ≤ (collectOne st t).results.length
      ∧ st.errors.length ≤ (collectOne st t).errors.length := by
  unfold collectOne
  by_cases h : isTruthy t.2.2 <;> simp [h]

theorem collectFold_mono {R : Type} (outs : List (Nat × Option R × Option String)) :
    ∀ st : BatchState R,
      st.completed ≤ (collectFold st outs).completed
        ∧ st.results.length ≤ (collectFold st outs).results.length
        ∧ st.errors.length ≤ (collectFold st outs).errors.length := by
  induction outs with
  | nil => intro st; simp [collectFold]
  | cons t ts ih =>
    intro st
    rw [collectFold_cons]
    have h1 := ih (collectOne st t)
    have h2 := collectOne_mono st t
    exact ⟨Nat.le_trans h2.1 h1.1, Nat.le_trans h2.2.1 h1.2.1, Nat.le_trans h2.2.2 h1.2.2⟩

theorem collectOne_mem_err {R : Type} (st : BatchState R) (t : Nat × Option R × Option String)
    (x : Nat × String) (hx : x ∈ st.errors) : x ∈ (collectOne st t).errors := by
  unfold collectOne
  by_cases h : isTruthy t.2.2 <;> simp [h, hx]

theorem collectOne_mem_res {R : Type} (st : BatchState R) (t : Nat × Option R × Option String)
    (x : Nat × Option R) (hx : x ∈ st.results) : x ∈ (collectOne st t).results := by
  unfold collectOne
  by_cases h : isTruthy t.2.2 <;> simp [h, hx]

theorem collectOne_adds_err {R : Type} (st : BatchState R)
    (t : Nat × Option R × Option String) (h : isTruthy t.2.2) :
    (t.1, t.2.2.getD "") ∈ (collectOne st t).errors := by
  simp [collectOne, h]

theorem collectOne_adds_res {R : Type} (st : BatchState R)
    (t : Nat × Option R × Option String) (h : ¬ isTruthy t.2.2) :
    (t.1, t.2.1) ∈ (collectOne st t).results := by
  simp [collectOne, h]

theorem collectFold_mem_err {R : Type} (outs : List (Nat × Option R × Option String)) :
    ∀ (st : BatchState R) (x : Nat × String), x ∈ st.errors → x ∈ (collectFold st outs).errors := by
  induction outs with
  | nil => intro st x hx; simpa [collectFold] using hx
  | cons t ts ih =>
    intro st x hx
    rw [collectFold_cons]
    exact ih (collectOne st t) x (collectOne_mem_err st t x hx)

theorem collectFold_mem_res {R : Type} (outs : List (Nat × Option R × Option String)) :
    ∀ (st : BatchState R) (x : Nat × Option R), x ∈ st.results → x ∈ (collectFold st outs).results := by
  induction outs with
  | nil => intro st x hx; simpa [collectFold] using hx
  | cons t ts ih =>
    intro st x hx
    rw [collectFold_cons]
    exact ih (collectOne st t) x (collectOne_mem_res st t x hx)

theorem collectFold_err_of_mem {R : Type} (outs : List (Nat × Option R × Option String))
    (t : Nat × Option R × Option String) (ht : t ∈ outs) (htr : isTruthy t.2.2) :
    ∀ st : BatchState R, (t.1, t.2.2.getD "") ∈ (collectFold st outs).errors := by
  induction outs with
  | nil => cases ht
  | cons u us ih =>
    intro st
    rw [collectFold_cons]
    rcases List.mem_cons.mp ht with h | h
    · subst h
      exact collectFold_mem_err us (collectOne st t) _ (collectOne_adds_err st t htr)
    · exact ih h (collectOne st u)

theorem collectFold_res_of_mem {R : Type} (outs : List (Nat × Option R × Option String))
    (t : Nat × Option R × Option String) (ht : t ∈ outs) (htr : ¬ isTruthy t.2.2) :
    ∀ st : BatchState R, (t.1, t.2.1) ∈ (collectFold st outs).results := by
  induction outs with
  | nil => cases ht
  | cons u us ih =>
    intro st
    rw [collectFold_cons]
    rcases List.mem_cons.mp ht with h | h
    · subst h
      exact collectFold_mem_res us (collectOne st t) _ (collectOne_adds_res st t htr)
    · exact ih h (collectOne st u)

instance fstLeTotal {α : Type} : IsTotal (Nat × α) (fun a b => a.1 ≤ b.1) :=
  ⟨fun a b => Nat.le_total a.1 b.1⟩

instance fstLeTrans {α : Type} : IsTrans (Nat × α) (fun a b => a.1 ≤ b.1) :=
  ⟨fun _ _ _ h₁ h₂ => Nat.le_trans h₁ h₂⟩

theorem sortResults_sorted {R : Type} (rs : List (Nat × Option R)) :
    List.Pairwise (fun a b => a.1 ≤ b.1) (sortResults rs) :=
  List.sorted_insertionSort _ rs

theorem sortResults_perm {R : Type} (rs : List (Nat × Option R)) :
    (sortResults rs).Perm rs :=
  List.perm_insertionSort _ rs

theorem sortResults_strict {R : Type} (rs : List (Nat × Option R))
    (h : (rs.map Prod.fst).Nodup) :
    List.Pairwise (fun a b => a.1 < b.1) (sortResults rs) := by
  have hs := sortResults_sorted rs
  have hp : (sortResults rs).Perm rs := sortResults_perm rs
  have hnd : ((sortResults rs).map Prod.fst).Nodup := ((hp.map Prod.fst).nodup_iff).mpr h
  have hne : List.Pairwise (fun a b : Nat × Option R => a.1 ≠ b.1) (sortResults rs) :=
    (List.pairwise_map).mp hnd
  exact (hs.and hne).imp (fun hab => Nat.lt_of_le_of_ne hab.1 hab.2)

theorem evaluate_single_fst {R : Type} (op : Nat → Except String R) (i : Nat) :
    (evaluate_single op i).1 = i := by
  unfold evaluate_single
  cases op i <;> rfl

theorem collectLoop_keys {R : Type} (op : Nat → Except String R) (order : List Nat) :
    ((collectLoop op order).results.map Prod.fst
      ++ (collectLoop op order).errors.map Prod.fst).Perm order := by
  have h := collectFold_keys (order.map (evaluate_single op)) ⟨[], [], 0⟩
  simp only [stKeys, List.map_nil, List.append_nil, List.map_map] at h
  have hmap : order.map ((fun t : Nat × Option R × Option String => t.1) ∘ evaluate_single op)
      = order := by
    have : ∀ i ∈ order, ((fun t : Nat × Option R × Option String => t.1) ∘ evaluate_single op) i
        = id i := by
      intro i _
      simp [Function.comp, evaluate_single_fst]
    rw [List.map_congr_left this, List.map_id]
  rw [hmap] at h
  exact h

theorem collectLoop_len {R : Type} (op : Nat → Except String R) (order : List Nat) :
    (collectLoop op order).results.length + (collectLoop op order).errors.length
      = order.length := by
  have h := collectFold_len (order.map (evaluate_single op)) (⟨[], [], 0⟩ : BatchState R)
  simpa [collectLoop] using h

end ArxivUtils

namespace Banking77Utils

theorem evaluate_single_row_fst {Row R : Type} (inference_data : List Row)
    (evalOp : Row → Except String R) (i : Nat) (p g : Int) :
    (evaluate_single inference_data evalOp i p g).1 = i := by
  unfold evaluate_single
  cases h : inference_data[i]? with
  | none => rfl
  | some row =>
    dsimp only
    cases evalOp row <;> rfl

theorem batch_eq {Row R : Type} (inference_data : List Row) (evalOp : Row → Except String R)
    (work : List (Nat × Int × Int)) :
    evaluate_incorrect_classifications_batch inference_data evalOp work
      = (ArxivUtils.sortResults (ArxivUtils.collectFold ⟨[], [], 0⟩
            (work.map (fun t => evaluate_single inference_data evalOp t.1 t.2.1 t.2.2))).results,
         (ArxivUtils.collectFold ⟨[], [], 0⟩
            (work.map (fun t => evaluate_single inference_data evalOp t.1 t.2.1 t.2.2))).errors) :=
  rfl

theorem batch_len {Row R : Type} (inference_data : List Row) (evalOp : Row → Except String R)
    (work : List (Nat × Int × Int)) :
    (evaluate_incorrect_classifications_batch inference_data evalOp work).1.length
      + (evaluate_incorrect_classifications_batch inference_data evalOp work).2.length
      = work.length := by
  rw [batch_eq]
  have h1 := ArxivUtils.collectFold_len
    (work.map (fun t => evaluate_single inference_data evalOp t.1 t.2.1 t.2.2))
    (⟨[], [], 0⟩ : ArxivUtils.BatchState R)
  have h2 := (ArxivUtils.sortResults_perm (ArxivUtils.collectFold ⟨[], [], 0⟩
    (work.map (fun t => evaluate_single inference_data evalOp t.1 t.2.1 t.2.2))).results).length_eq
  simp at h1
  simp [h2, h1]

theorem batch_keys {Row R : Type} (inference_data : List Row) (evalOp : Row → Except String R)
    (work : List (Nat × Int × Int)) :
    ((evaluate_incorrect_classifications_batch inference_data evalOp work).1.map Prod.fst
      ++ (evaluate_incorrect_classifications_batch inference_data evalOp work).2.map Prod.fst).Perm
      (work.map (fun t => t.1)) := by
  rw [batch_eq]
  have h := ArxivUtils.collectFold_keys
    (work.map (fun t => evaluate_single inference_data evalOp t.1 t.2.1 t.2.2))
    (⟨[], [], 0⟩ : ArxivUtils.BatchState R)
  simp only [ArxivUtils.stKeys, List.map_nil, List.append_nil, List.map_map] at h
  have hmap : work.map ((fun t : Nat × Option R × Option String => t.1)
      ∘ (fun t : Nat × Int × Int => evaluate_single inference_data evalOp t.1 t.2.1 t.2.2))
      = work.map (fun t => t.1) := by
    refine List.map_congr_left ?_
    intro t _
    simp [Function.comp, evaluate_single_row_fst]
  rw [hmap] at h
  refine List.Perm.trans ?_ h
  refine List.Perm.append ?_ (List.Perm.refl _)
  exact (ArxivUtils.sortResults_perm _).map Prod.fst

end Banking77Utils

/-- C1: for every batch call over N work items (any N >= 0) and any order in
which the N submitted futures complete, every item yields exactly one outcome:
the number of entries in the successes list plus the number of entries in the
errors list equals N. Stated for `evaluate_summaries_batch` (N = n, items
indexed by `enumerate`) and `evaluate_incorrect_classifications_batch`
(N = the length of `incorrect_list`). -/
theorem c1_every_item_one_outcome {R Row S : Type} (op : Nat → Except String R) (n : Nat)
    (order : List Nat) (h : order.Perm (List.range n))
    (inference_data : List Row) (evalOp : Row → Except String S)
    (incorrect_list work : List (Nat × Int × Int)) (hw : work.Perm incorrect_list) :
    (ArxivUtils.evaluate_summaries_batch op order).1.length
        + (ArxivUtils.evaluate_summaries_batch op order).2.length = n
    ∧ (Banking77Utils.evaluate_incorrect_classifications_batch inference_data evalOp work).1.length
        + (Banking77Utils.evaluate_incorrect_classifications_batch inference_data evalOp work).2.length
        = incorrect_list.length := by
  constructor
  · have h1 := ArxivUtils.collectLoop_len op order
    have h2 := (ArxivUtils.sortResults_perm (ArxivUtils.collectLoop op order).results).length_eq
    have h3 : order.length = n := by
      have := h.length_eq
      simpa using this
    show (ArxivUtils.sortResults (ArxivUtils.collectLoop op order).results).length
        + (ArxivUtils.collectLoop op order).errors.length = n
    omega
  · have h1 := Banking77Utils.batch_len inference_data evalOp work
    have h2 : work.length = incorrect_list.length := hw.length_eq
    omega

/-- Witness for C1 at a concrete batch: two conversations, completion order
reversed, one succeeding and one failing; and one misclassification row. -/
theorem c1_witness :
    ([1, 0].Perm (List.range 2)
      ∧ [((0 : Nat), (1 : Int), (2 : Int))].Perm [((0 : Nat), (1 : Int), (2 : Int))])
    ∧ ((ArxivUtils.evaluate_summaries_batch
          (fun i => if i = 0 then Except.ok 10 else (Except.error "boom" : Except String Nat))
          [1, 0]).1.length
        + (ArxivUtils.evaluate_summaries_batch
          (fun i => if i = 0 then Except.ok 10 else (Except.error "boom" : Except String Nat))
          [1, 0]).2.length = 2
      ∧ (Banking77Utils.evaluate_incorrect_classifications_batch [5]
          (fun r => (Except.ok r : Except String Nat)) [(0, 1, 2)]).1.length
        + (Banking77Utils.evaluate_incorrect_classifications_batch [5]
          (fun r => (Except.ok r : Except String Nat)) [(0, 1, 2)]).2.length
        = [((0 : Nat), (1 : Int), (2 : Int))].length) :=
  ⟨⟨by decide, by decide⟩,
    c1_every_item_one_outcome
      (fun i => if i = 0 then Except.ok 10 else (Except.error "boom" : Except String Nat))
      2 [1, 0] (by decide) [5] (fun r => (Except.ok r : Except String Nat))
      [((0 : Nat), (1 : Int), (2 : Int))] [((0 : Nat), (1 : Int), (2 : Int))] (by decide)⟩

/-- C6: for an empty input the batch call returns an empty successes list and
an empty errors list, and the per-item operation is never invoked: the
outputs are the same whatever operation was supplied. (With no items, no
future is submitted and `as_completed` yields nothing, so the completion
order is the empty list.) -/
theorem c6_empty_batch {R : Type} (op alt : Nat → Except String R) :
    ArxivUtils.evaluate_summaries_batch op [] = ([], [])
    ∧ ArxivUtils.evaluate_summaries_batch op []
        = ArxivUtils.evaluate_summaries_batch alt [] :=
  ⟨rfl, rfl⟩

/-- C7: with `max_workers < 1`, entering the `with ThreadPoolExecutor(...)`
block raises CPython's ValueError before any task is submitted, so the batch
call fails fast: the result is that error regardless of the operation and of
the items, at both `evaluate_summaries_batch` and
`generate_hard_examples_batch`. -/
theorem c7_invalid_max_workers {R HR : Type} (max_workers : Int) (h : max_workers < 1)
    (op : Nat → Except String R) (order : List Nat)
    (genOp : String → Except String HR) (pairs : List String) :
    ArxivUtils.evaluate_summaries_batch_call max_workers op order
        = Except.error "max_workers must be greater than 0"
    ∧ Banking77Utils.generate_hard_examples_batch_call max_workers genOp pairs
        = Except.error "max_workers must be greater than 0" := by
  have h0 : max_workers ≤ 0 := by omega
  constructor
  · simp [ArxivUtils.evaluate_summaries_batch_call, ArxivUtils.threadPoolExecutorCheck, h0]
  · simp [Banking77Utils.generate_hard_examples_batch_call,
      ArxivUtils.threadPoolExecutorCheck, h0]

/-- Witness for C7 at `max_workers = 0`. -/
theorem c7_witness :
    ((0 : Int) < 1)
    ∧ (ArxivUtils.evaluate_summaries_batch_call 0
          (fun i => (Except.ok i : Except String Nat)) [0, 1]
        = Except.error "max_workers must be greater than 0"
      ∧ Banking77Utils.generate_hard_examples_batch_call 0
          (fun s => (Except.ok s : Except String String)) ["47-59"]
        = Except.error "max_workers must be greater than 0") :=
  ⟨by decide,
    c7_invalid_max_workers 0 (by decide) (fun i => (Except.ok i : Except String Nat)) [0, 1]
      (fun s => (Except.ok s : Except String String)) ["47-59"]⟩

/-- C9: importing the arXiv utils module runs `client = get_openai_client()`
at module level, so with `OPENAI_API_KEY` unset the import itself raises the
ValueError and no function of that module (its batch functions included) can
be called; the Banking77 module only runs `_client = None` at import, so
its import succeeds with no key, and the client is first constructed and the
same ValueError first raised — at the first `get_client()` call. With a
non-empty key the arXiv import succeeds and yields the client built from it. -/
theorem c9_eager_vs_lazy_client :
    ArxivUtils.importModule none
        = Except.error "OPENAI_API_KEY environment variable is not set"
    ∧ Banking77Utils.importModule none = Except.ok none
    ∧ Banking77Utils.get_client none none
        = Except.error "OPENAI_API_KEY environment variable is not set"
    ∧ (∀ k : String, ¬ k = "" → ArxivUtils.importModule (some k) = Except.ok ⟨k⟩) := by
  refine ⟨rfl, rfl, rfl, ?_⟩
  intro k hk
  simp [ArxivUtils.importModule, ArxivUtils.get_openai_client, hk]

/-- C8: throughout the lifetime of a batch run under a pool with worker cap
`W`, every state the run can reach has at most `W` operations executing
concurrently: a pending task is dispatched into a worker only while fewer
than `W` operations are in progress, and the bound is an invariant of every
reachable state, whatever the items and however dispatches and completions
interleave. -/
theorem c8_worker_cap (W : Nat) (items : List Nat) (s : Pool.PoolState)
    (h : Pool.PoolReach W (Pool.startState items) s) : s.running.length ≤ W := by
  induction h with
  | refl => simp [Pool.startState]
  | tail t u hreach hstep ih =>
    cases hstep with
    | dispatch i p r f hr => simpa using hr
    | complete i p r₁ r₂ f =>
      simp only [List.length_append, List.length_cons] at ih ⊢
      omega

/-- Witness for C8: three items, cap two, after two dispatches the reached
state runs exactly two operations, within the cap. -/
theorem c8_witness :
    Pool.PoolReach 2 (Pool.startState [0, 1, 2]) ⟨[2], [1, 0], []⟩
    ∧ (Pool.PoolState.mk [2] [1, 0] []).running.length ≤ 2 :=
  have h1 : Pool.PoolStep 2 (Pool.startState [0, 1, 2]) ⟨[1, 2], [0], []⟩ :=
    Pool.PoolStep.dispatch 0 [1, 2] [] [] (by decide)
  have h2 : Pool.PoolStep 2 ⟨[1, 2], [0], []⟩ ⟨[2], [1, 0], []⟩ :=
    Pool.PoolStep.dispatch 1 [2] [0] [] (by decide)
  have hr : Pool.PoolReach 2 (Pool.startState [0, 1, 2]) ⟨[2], [1, 0], []⟩ :=
    Pool.PoolReach.tail _ _ _ (Pool.PoolReach.tail _ _ _ (Pool.PoolReach.refl _) h1) h2
  ⟨hr, c8_worker_cap 2 [0, 1, 2] ⟨[2], [1, 0], []⟩ hr⟩

/-- C4 counterexample: the claim that at every observation point
`completed = succeeded + failed` is false on the code. The loop increments
`completed` only in the success branch (src/arxiv_abstract/notebooks/utils.py
line 321; same at src/banking77/notebooks/utils.py line 1001), so after a
batch of two items whose first completed item failed and second succeeded,
the loop state has `completed = 1` while one success plus one failure have
been collected. -/
theorem c4_counterexample :
    ¬ ((ArxivUtils.collectLoop
          (fun i => if i = 0 then (Except.error "boom" : Except String Nat) else Except.ok 7)
          [0, 1]).completed
        = (ArxivUtils.collectLoop
          (fun i => if i = 0 then (Except.error "boom" : Except String Nat) else Except.ok 7)
          [0, 1]).results.length
        + (ArxivUtils.collectLoop
          (fun i => if i = 0 then (Except.error "boom" : Except String Nat) else Except.ok 7)
          [0, 1]).errors.length) := by
  decide

/-- C4 amended: at every observation point (the loop state after any prefix
`p` of the completion order) the counters are monotonically non-decreasing in
the number of processed items, and the number of items processed so far
equals the number of successes plus the number of failures collected so far;
but the code's `completed` counter equals the number of successes alone, not
successes plus failures. -/
theorem c4_progress_invariants {R : Type} (op : Nat → Except String R) (p q : List Nat)
    (hq : q <+: p) :
    (ArxivUtils.collectLoop op p).completed = (ArxivUtils.collectLoop op p).results.length
    ∧ (ArxivUtils.collectLoop op p).results.length + (ArxivUtils.collectLoop op p).errors.length
        = p.length
    ∧ (ArxivUtils.collectLoop op q).completed ≤ (ArxivUtils.collectLoop op p).completed
    ∧ (ArxivUtils.collectLoop op q).results.length ≤ (ArxivUtils.collectLoop op p).results.length
    ∧ (ArxivUtils.collectLoop op q).errors.length ≤ (ArxivUtils.collectLoop op p).errors.length := by
  obtain ⟨r, rfl⟩ := hq
  have hsplit : ArxivUtils.collectLoop op (q ++ r)
      = ArxivUtils.collectFold (ArxivUtils.collectLoop op q)
          (r.map (ArxivUtils.evaluate_single op)) := by
    unfold ArxivUtils.collectLoop ArxivUtils.collectFold
    rw [List.map_append, List.foldl_append]
  have hcomp := ArxivUtils.collectFold_completed
    ((q ++ r).map (ArxivUtils.evaluate_single op)) (⟨[], [], 0⟩ : ArxivUtils.BatchState R)
  have hlen := ArxivUtils.collectLoop_len op (q ++ r)
  have hmono := ArxivUtils.collectFold_mono
    (r.map (ArxivUtils.evaluate_single op)) (ArxivUtils.collectLoop op q)
  rw [← hsplit] at hmono
  refine ⟨?_, hlen, hmono.1, hmono.2.1, hmono.2.2⟩
  have : ArxivUtils.collectLoop op (q ++ r)
      = ArxivUtils.collectFold ⟨[], [], 0⟩ ((q ++ r).map (ArxivUtils.evaluate_single op)) := rfl
  rw [this]
  simpa using hcomp

/-- Witness for C4 amended: the two-item run of the counterexample, observed
after its first item. -/
theorem c4_witness :
    ([0] <+: [0, 1])
    ∧ ((ArxivUtils.collectLoop
          (fun i => if i = 0 then (Except.error "boom" : Except String Nat) else Except.ok 7)
          [0, 1]).completed
        = (ArxivUtils.collectLoop
          (fun i => if i = 0 then (Except.error "boom" : Except String Nat) else Except.ok 7)
          [0, 1]).results.length
      ∧ (ArxivUtils.collectLoop
          (fun i => if i = 0 then (Except.error "boom" : Except String Nat) else Except.ok 7)
          [0, 1]).results.length
        + (ArxivUtils.collectLoop
          (fun i => if i = 0 then (Except.error "boom" : Except String Nat) else Except.ok 7)
          [0, 1]).errors.length = [0, 1].length
      ∧ (ArxivUtils.collectLoop
          (fun i => if i = 0 then (Except.error "boom" : Except String Nat) else Except.ok 7)
          [0]).completed
        ≤ (ArxivUtils.collectLoop
          (fun i => if i = 0 then (Except.error "boom" : Except String Nat) else Except.ok 7)
          [0, 1]).completed
      ∧ (ArxivUtils.collectLoop
          (fun i => if i = 0 then (Except.error "boom" : Except String Nat) else Except.ok 7)
          [0]).results.length
        ≤ (ArxivUtils.collectLoop
          (fun i => if i = 0 then (Except.error "boom" : Except String Nat) else Except.ok 7)
          [0, 1]).results.length
      ∧ (ArxivUtils.collectLoop
          (fun i => if i = 0 then (Except.error "boom" : Except String Nat) else Except.ok 7)
          [0]).errors.length
        ≤ (ArxivUtils.collectLoop
          (fun i => if i = 0 then (Except.error "boom" : Except String Nat) else Except.ok 7)
          [0, 1]).errors.length) :=
  ⟨⟨[1], rfl⟩,
    c4_progress_invariants
      (fun i => if i = 0 then (Except.error "boom" : Except String Nat) else Except.ok 7)
      [0, 1] [0] ⟨[1], rfl⟩⟩

/-- C3 counterexample: the claim that an exception raised by the per-item
operation is always recorded in the failures list with its message is false
on the code. The loop routes on Python truthiness (`if error:` at
src/arxiv_abstract/notebooks/utils.py line 315), so an exception whose
message `str(e)` is the empty string is appended to the successes list with a
`None` payload, and the failures list stays empty. -/
theorem c3_counterexample :
    (ArxivUtils.evaluate_summaries_batch
        (fun i => (Except.error "" : Except String Nat)) [0]).2 = []
    ∧ (ArxivUtils.evaluate_summaries_batch
        (fun i => (Except.error "" : Except String Nat)) [0]).1 = [(0, none)]
    ∧ ¬ ((0, "") ∈ (ArxivUtils.evaluate_summaries_batch
        (fun i => (Except.error "" : Except String Nat)) [0]).2) := by
  refine ⟨rfl, rfl, ?_⟩
  decide

/-- C3 amended: if the per-item operation raises for item `i` with a
NON-EMPTY message `e`, the pair `(i, e)` is recorded in the errors list (an
exception whose message is empty is instead appended to the successes list
with a null payload, as the counterexample shows); no exception propagates
out of the batch call (`evaluate_single` and the batch function are total),
and every sibling item still runs to completion and lands in one of the two
output lists. Likewise `generate_for_pair` converts any exception of its
body into a failure record carrying the message. -/
theorem c3_item_failure_captured {R HR : Type} (op : Nat → Except String R) (order : List Nat)
    (i : Nat) (e : String) (hi : i ∈ order) (he : op i = Except.error e) (hne : ¬ e = "")
    (genOp : String → Except String HR) (pair e₂ : String) (hg : genOp pair = Except.error e₂) :
    (i, e) ∈ (ArxivUtils.evaluate_summaries_batch op order).2
    ∧ (∀ j ∈ order, (∃ r, (j, r) ∈ (ArxivUtils.evaluate_summaries_batch op order).1)
        ∨ (∃ s, (j, s) ∈ (ArxivUtils.evaluate_summaries_batch op order).2))
    ∧ Banking77Utils.generate_for_pair genOp pair
        = ⟨pair, false, some e₂, none⟩ := by
  have ht : ArxivUtils.evaluate_single op i = (i, none, some e) := by
    unfold ArxivUtils.evaluate_single
    rw [he]
  refine ⟨?_, ?_, ?_⟩
  · have htr : ArxivUtils.isTruthy (ArxivUtils.evaluate_single op i).2.2 = true := by
      rw [ht]
      simp [ArxivUtils.isTruthy, hne]
    have hmem : ArxivUtils.evaluate_single op i ∈ order.map (ArxivUtils.evaluate_single op) :=
      List.mem_map_of_mem _ hi
    have hout := ArxivUtils.collectFold_err_of_mem (order.map (ArxivUtils.evaluate_single op))
      (ArxivUtils.evaluate_single op i) hmem htr ⟨[], [], 0⟩
    rw [ht] at hout
    show (i, e) ∈ (ArxivUtils.collectLoop op order).errors
    simpa [ArxivUtils.collectLoop] using hout
  · intro j hj
    have hkeys := ArxivUtils.collectLoop_keys op order
    have hj2 : j ∈ (ArxivUtils.collectLoop op order).results.map Prod.fst
        ++ (ArxivUtils.collectLoop op order).errors.map Prod.fst := hkeys.mem_iff.mpr hj
    rcases List.mem_append.mp hj2 with hr | herr
    · left
      rcases List.mem_map.mp hr with ⟨x, hx, hfst⟩
      refine ⟨x.2, ?_⟩
      have hx2 : x ∈ ArxivUtils.sortResults (ArxivUtils.collectLoop op order).results :=
        ((ArxivUtils.sortResults_perm _).mem_iff).mpr hx
      have hxe : (j, x.2) = x := by rw [← hfst]
      show (j, x.2) ∈ ArxivUtils.sortResults (ArxivUtils.collectLoop op order).results
      rw [hxe]
      exact hx2
    · right
      rcases List.mem_map.mp herr with ⟨x, hx, hfst⟩
      refine ⟨x.2, ?_⟩
      have hxe : (j, x.2) = x := by rw [← hfst]
      show (j, x.2) ∈ (ArxivUtils.collectLoop op order).errors
      rw [hxe]
      exact hx
  · unfold Banking77Utils.generate_for_pair
    rw [hg]

/-- Witness for C3 amended: a two-item batch whose item 0 raises with message
"boom" and whose item 1 succeeds, plus one failing pair generation. -/
theorem c3_witness :
    ((0 ∈ [0, 1])
      ∧ (fun i => if i = 0 then (Except.error "boom" : Except String Nat) else Except.ok 1) 0
          = Except.error "boom"
      ∧ ¬ "boom" = ""
      ∧ (fun s => (Except.error "bad parse" : Except String String)) "47-59"
          = Except.error "bad parse")
    ∧ ((0, "boom") ∈ (ArxivUtils.evaluate_summaries_batch
          (fun i => if i = 0 then (Except.error "boom" : Except String Nat) else Except.ok 1)
          [0, 1]).2
      ∧ (∀ j ∈ [0, 1], (∃ r, (j, r) ∈ (ArxivUtils.evaluate_summaries_batch
            (fun i => if i = 0 then (Except.error "boom" : Except String Nat) else Except.ok 1)
            [0, 1]).1)
          ∨ (∃ s, (j, s) ∈ (ArxivUtils.evaluate_summaries_batch
            (fun i => if i = 0 then (Except.error "boom" : Except String Nat) else Except.ok 1)
            [0, 1]).2))
      ∧ Banking77Utils.generate_for_pair
          (fun s => (Except.error "bad parse" : Except String String)) "47-59"
          = ⟨"47-59", false, some "bad parse", none⟩) :=
  ⟨⟨by decide, rfl, by decide, rfl⟩,
    c3_item_failure_captured
      (fun i => if i = 0 then (Except.error "boom" : Except String Nat) else Except.ok 1)
      [0, 1] 0 "boom" (by decide) rfl (by decide)
      (fun s => (Except.error "bad parse" : Except String String)) "47-59" "bad parse" rfl⟩

/-- C2 counterexample: the claim that at every one of the four orchestrator
call sites the returned successes are sorted ascending by original index is
false at `generate_hard_examples_batch`: its `all_results` list is appended
in completion order and never re-sorted (src/banking77/notebooks/utils.py
lines 1313-1341). With pairs submitted as ["0-1", "2-3"] and the second
pair's future completing first — a legitimate completion order, a
permutation of the submitted pairs — the returned results carry original
positions [1, 0], not ascending. -/
theorem c2_counterexample :
    (["2-3", "0-1"].Perm ["0-1", "2-3"])
    ∧ (Banking77Utils.generate_hard_examples_batch
        (fun s => (Except.ok 0 : Except String Nat)) ["2-3", "0-1"]).map
        (fun r => ["0-1", "2-3"].indexOf r.pair) = [1, 0]
    ∧ ¬ List.Pairwise
        (fun a b => ["0-1", "2-3"].indexOf a.pair ≤ ["0-1", "2-3"].indexOf b.pair)
        (Banking77Utils.generate_hard_examples_batch
          (fun s => (Except.ok 0 : Except String Nat)) ["2-3", "0-1"]) := by
  refine ⟨by decide, by decide, by decide⟩

/-- C2 amended: at the three call sites that re-sort —
`evaluate_summaries_batch`, `generate_abstracts_batch` and
`evaluate_incorrect_classifications_batch` — the successes list is sorted
ascending by the recorded index whatever the completion order (strictly so at
the arXiv sites, whose indices come from `enumerate` and are distinct);
`generate_hard_examples_batch` instead returns its results in completion
order, unsorted. -/
theorem c2_successes_sorted {R Row S : Type} (op : Nat → Except String R) (n : Nat)
    (order : List Nat) (h : order.Perm (List.range n))
    (inference_data : List Row) (evalOp : Row → Except String S)
    (work : List (Nat × Int × Int)) :
    List.Pairwise (fun a b => a.1 < b.1) (ArxivUtils.evaluate_summaries_batch op order).1
    ∧ List.Pairwise (fun a b => a.1 < b.1) (ArxivUtils.generate_abstracts_batch op order).1
    ∧ List.Pairwise (fun a b => a.1 ≤ b.1)
        (Banking77Utils.evaluate_incorrect_classifications_batch inference_data evalOp work).1 := by
  have hkeys := ArxivUtils.collectLoop_keys op order
  have hnd : ((ArxivUtils.collectLoop op order).results.map Prod.fst
      ++ (ArxivUtils.collectLoop op order).errors.map Prod.fst).Nodup :=
    ((hkeys.trans h).nodup_iff).mpr (List.nodup_range n)
  have hndres : ((ArxivUtils.collectLoop op order).results.map Prod.fst).Nodup :=
    hnd.of_append_left
  refine ⟨ArxivUtils.sortResults_strict _ hndres, ArxivUtils.sortResults_strict _ hndres, ?_⟩
  rw [Banking77Utils.batch_eq]
  exact ArxivUtils.sortResults_sorted _

/-- Witness for C2 amended at a concrete two-item batch with reversed
completion order. -/
theorem c2_witness :
    ([1, 0].Perm (List.range 2))
    ∧ (List.Pairwise (fun a b => a.1 < b.1) (ArxivUtils.evaluate_summaries_batch
          (fun i => if i = 0 then Except.ok 10 else (Except.error "boom" : Except String Nat))
          [1, 0]).1
      ∧ List.Pairwise (fun a b => a.1 < b.1) (ArxivUtils.generate_abstracts_batch
          (fun i => if i = 0 then Except.ok 10 else (Except.error "boom" : Except String Nat))
          [1, 0]).1
      ∧ List.Pairwise (fun a b => a.1 ≤ b.1)
          (Banking77Utils.evaluate_incorrect_classifications_batch [5]
            (fun r => (Except.ok r : Except String Nat)) [(0, 1, 2)]).1) :=
  ⟨by decide,
    c2_successes_sorted
      (fun i => if i = 0 then Except.ok 10 else (Except.error "boom" : Except String Nat))
      2 [1, 0] (by decide) [5] (fun r => (Except.ok r : Except String Nat)) [(0, 1, 2)]⟩

/-- C5 counterexample: the claim that the indices appearing across the two
output lists are exactly 0..N-1 is false at
`evaluate_incorrect_classifications_batch`: the recorded indices are the
callers' `row_idx` identifiers from `incorrect_list` (positions into
`inference_data`), not positions 0..N-1 of the batch input. A one-item batch
over the misclassified row 5 outputs index 5, not 0. -/
theorem c5_counterexample :
    ((Banking77Utils.evaluate_incorrect_classifications_batch [10, 20, 30, 40, 50, 60]
        (fun r => (Except.ok r : Except String Nat)) [(5, 1, 2)]).1.map Prod.fst
      ++ (Banking77Utils.evaluate_incorrect_classifications_batch [10, 20, 30, 40, 50, 60]
        (fun r => (Except.ok r : Except String Nat)) [(5, 1, 2)]).2.map Prod.fst) = [5]
    ∧ ¬ (((Banking77Utils.evaluate_incorrect_classifications_batch [10, 20, 30, 40, 50, 60]
        (fun r => (Except.ok r : Except String Nat)) [(5, 1, 2)]).1.map Prod.fst
      ++ (Banking77Utils.evaluate_incorrect_classifications_batch [10, 20, 30, 40, 50, 60]
        (fun r => (Except.ok r : Except String Nat)) [(5, 1, 2)]).2.map Prod.fst).Perm
        (List.range 1)) := by
  refine ⟨rfl, by decide⟩

/-- C5 amended: with no index appearing twice and none in both lists, the
multiset of indices across successes and errors is exactly 0..N-1 at
`evaluate_summaries_batch` (indices assigned by `enumerate`), and exactly
the multiset of `row_idx` identifiers of `incorrect_list` at
`evaluate_incorrect_classifications_batch`. -/
theorem c5_index_coverage {R Row S : Type} (op : Nat → Except String R) (n : Nat)
    (order : List Nat) (h : order.Perm (List.range n))
    (inference_data : List Row) (evalOp : Row → Except String S)
    (incorrect_list work : List (Nat × Int × Int)) (hw : work.Perm incorrect_list) :
    ((ArxivUtils.evaluate_summaries_batch op order).1.map Prod.fst
      ++ (ArxivUtils.evaluate_summaries_batch op order).2.map Prod.fst).Perm (List.range n)
    ∧ ((Banking77Utils.evaluate_incorrect_classifications_batch inference_data evalOp work).1.map
          Prod.fst
      ++ (Banking77Utils.evaluate_incorrect_classifications_batch inference_data evalOp
          work).2.map Prod.fst).Perm (incorrect_list.map (fun t => t.1)) := by
  constructor
  · have hsort : ((ArxivUtils.evaluate_summaries_batch op order).1.map Prod.fst
        ++ (ArxivUtils.evaluate_summaries_batch op order).2.map Prod.fst).Perm
        ((ArxivUtils.collectLoop op order).results.map Prod.fst
          ++ (ArxivUtils.collectLoop op order).errors.map Prod.fst) :=
      List.Perm.append ((ArxivUtils.sortResults_perm _).map Prod.fst) (List.Perm.refl _)
    exact (hsort.trans (ArxivUtils.collectLoop_keys op order)).trans h
  · exact (Banking77Utils.batch_keys inference_data evalOp work).trans (hw.map (fun t => t.1))

/-- Witness for C5 amended: the concrete batches of the C1 witness. -/
theorem c5_witness :
    ([1, 0].Perm (List.range 2)
      ∧ [((5 : Nat), (1 : Int), (2 : Int))].Perm [((5 : Nat), (1 : Int), (2 : Int))])
    ∧ (((ArxivUtils.evaluate_summaries_batch
          (fun i => if i = 0 then Except.ok 10 else (Except.error "boom" : Except String Nat))
          [1, 0]).1.map Prod.fst
        ++ (ArxivUtils.evaluate_summaries_batch
          (fun i => if i = 0 then Except.ok 10 else (Except.error "boom" : Except String Nat))
          [1, 0]).2.map Prod.fst).Perm (List.range 2)
      ∧ ((Banking77Utils.evaluate_incorrect_classifications_batch [10, 20, 30, 40, 50, 60]
            (fun r => (Except.ok r : Except String Nat)) [(5, 1, 2)]).1.map Prod.fst
        ++ (Banking77Utils.evaluate_incorrect_classifications_batch [10, 20, 30, 40, 50, 60]
            (fun r => (Except.ok r : Except String Nat)) [(5, 1, 2)]).2.map Prod.fst).Perm
          ([((5 : Nat), (1 : Int), (2 : Int))].map (fun t => t.1))) :=
  ⟨⟨by decide, by decide⟩,
    c5_index_coverage
      (fun i => if i = 0 then Except.ok 10 else (Except.error "boom" : Except String Nat))
      2 [1, 0] (by decide) [10, 20, 30, 40, 50, 60]
      (fun r => (Except.ok r : Except String Nat))
      [((5 : Nat), (1 : Int), (2 : Int))] [((5 : Nat), (1 : Int), (2 : Int))] (by decide)⟩

/-- C10: a caller-supplied `row_idx` that is out of range for
`inference_data` is captured as the failure entry
`(row_idx, "list index out of range")` in the errors list — the lookup
`inference_data[row_idx]` sits inside the per-item `try:` block, so CPython's
IndexError is caught like any other per-item exception and nothing raises out
of the batch call — and the combined length of results and errors still
equals the length of `incorrect_list`. -/
theorem c10_out_of_range_row_captured {Row R : Type} (inference_data : List Row)
    (evalOp : Row → Except String R) (incorrect_list work : List (Nat × Int × Int))
    (hw : work.Perm incorrect_list) (row_idx : Nat) (p g : Int)
    (hmem : (row_idx, p, g) ∈ work) (hoob : inference_data.length ≤ row_idx) :
    (row_idx, "list index out of range")
        ∈ (Banking77Utils.evaluate_incorrect_classifications_batch inference_data evalOp work).2
    ∧ (Banking77Utils.evaluate_incorrect_classifications_batch inference_data evalOp work).1.length
      + (Banking77Utils.evaluate_incorrect_classifications_batch inference_data evalOp
          work).2.length
      = incorrect_list.length := by
  have hnone : inference_data[row_idx]? = none := by
    rw [List.getElem?_eq_none_iff]
    exact hoob
  have ht : Banking77Utils.evaluate_single inference_data evalOp row_idx p g
      = (row_idx, none, some "list index out of range") := by
    unfold Banking77Utils.evaluate_single
    rw [hnone]
  constructor
  · have hmem2 : Banking77Utils.evaluate_single inference_data evalOp row_idx p g
        ∈ work.map (fun t =>
            Banking77Utils.evaluate_single inference_data evalOp t.1 t.2.1 t.2.2) :=
      List.mem_map.mpr ⟨(row_idx, p, g), hmem, rfl⟩
    have htr : ArxivUtils.isTruthy
        (Banking77Utils.evaluate_single inference_data evalOp row_idx p g).2.2 = true := by
      rw [ht]
      show ArxivUtils.isTruthy (some "list index out of range") = true
      decide
    have hout := ArxivUtils.collectFold_err_of_mem
      (work.map (fun t => Banking77Utils.evaluate_single inference_data evalOp t.1 t.2.1 t.2.2))
      (Banking77Utils.evaluate_single inference_data evalOp row_idx p g) hmem2 htr ⟨[], [], 0⟩
    rw [ht] at hout
    rw [Banking77Utils.batch_eq]
    simpa using hout
  · have h1 := Banking77Utils.batch_len inference_data evalOp work
    have h2 : work.length = incorrect_list.length := hw.length_eq
    omega

/-- Witness for C10: an empty `inference_data` with one misclassification
entry pointing at row 3. -/
theorem c10_witness :
    ([((3 : Nat), (1 : Int), (2 : Int))].Perm [((3 : Nat), (1 : Int), (2 : Int))]
      ∧ ((3 : Nat), (1 : Int), (2 : Int)) ∈ [((3 : Nat), (1 : Int), (2 : Int))]
      ∧ ([] : List Nat).length ≤ 3)
    ∧ ((3, "list index out of range")
        ∈ (Banking77Utils.evaluate_incorrect_classifications_batch ([] : List Nat)
            (fun r => (Except.ok r : Except String Nat)) [(3, 1, 2)]).2
      ∧ (Banking77Utils.evaluate_incorrect_classifications_batch ([] : List Nat)
            (fun r => (Except.ok r : Except String Nat)) [(3, 1, 2)]).1.length
        + (Banking77Utils.evaluate_incorrect_classifications_batch ([] : List Nat)
            (fun r => (Except.ok r : Except String Nat)) [(3, 1, 2)]).2.length
        = [((3 : Nat), (1 : Int), (2 : Int))].length) :=
  ⟨⟨by decide, by decide, by decide⟩,
    c10_out_of_range_row_captured ([] : List Nat) (fun r => (Except.ok r : Except String Nat))
      [((3 : Nat), (1 : Int), (2 : Int))] [((3 : Nat), (1 : Int), (2 : Int))] (by decide)
      3 1 2 (by decide) (by decide)⟩
